import Mathlib

/-!
Shallow embedding of the Cinder-OculusRift block (`src/CinderOculus.cpp`,
class `hmd::OculusRift`) together with the pieces of its external
collaborators (glm math, the OVR SDK utility math, the host renderer) that
the verified properties depend on.

Scalars are modelled as exact rationals `ℚ`.  Matrices follow glm's
column-major indexing: field `mCR` of `Mat4` is glm's `M[C][R]`
(column `C`, row `R`).
-/

/-- A 3-component vector, mirroring `glm::vec3`. -/
structure Vec3 where
  x : ℚ
  y : ℚ
  z : ℚ
deriving DecidableEq, Repr

/-- A 4-component vector, mirroring `glm::vec4`. -/
structure Vec4 where
  x : ℚ
  y : ℚ
  z : ℚ
  w : ℚ
deriving DecidableEq, Repr

/-- A quaternion `w + xi + yj + zk`, mirroring `glm::quat`. -/
structure Quat where
  w : ℚ
  x : ℚ
  y : ℚ
  z : ℚ
deriving DecidableEq, Repr

/-- A 4x4 matrix in glm column-major layout: `mCR` is `M[C][R]`. -/
structure Mat4 where
  m00 : ℚ
  m01 : ℚ
  m02 : ℚ
  m03 : ℚ
  m10 : ℚ
  m11 : ℚ
  m12 : ℚ
  m13 : ℚ
  m20 : ℚ
  m21 : ℚ
  m22 : ℚ
  m23 : ℚ
  m30 : ℚ
  m31 : ℚ
  m32 : ℚ
  m33 : ℚ
deriving DecidableEq, Repr

def vadd (a b : Vec3) : Vec3 := ⟨a.x + b.x, a.y + b.y, a.z + b.z⟩

def vsub (a b : Vec3) : Vec3 := ⟨a.x - b.x, a.y - b.y, a.z - b.z⟩

def vdot (a b : Vec3) : ℚ := a.x * b.x + a.y * b.y + a.z * b.z

def vcross (a b : Vec3) : Vec3 :=
  ⟨a.y * b.z - a.z * b.y, a.z * b.x - a.x * b.z, a.x * b.y - a.y * b.x⟩

/-- Embeds the `glm::vec3` constructed from one scalar (all components equal). -/
def vec3all (q : ℚ) : Vec3 := ⟨q, q, q⟩

/-- The first three components of a `Vec4`, mirroring `vec3( v4 )`. -/
def vec4xyz (v : Vec4) : Vec3 := ⟨v.x, v.y, v.z⟩

/-- Embeds the `glm::vec4` built from a `vec3` and a `w` component. -/
def toVec4 (v : Vec3) (w : ℚ) : Vec4 := ⟨v.x, v.y, v.z, w⟩

/-- Exact rational square root used to model glm's `sqrt` over `ℚ`.
It is exact precisely when, in lowest terms, numerator and denominator
are perfect squares; every use in this development evaluates it on such
values (squared norms of exactly-unit vectors). -/
def sqrtQ (q : ℚ) : ℚ := (Int.sqrt q.num : ℚ) / (Nat.sqrt q.den : ℚ)

/-- Embeds `glm::normalize` for 3-vectors. -/
def vnormalize (v : Vec3) : Vec3 :=
  let n := sqrtQ (vdot v v)
  ⟨v.x / n, v.y / n, v.z / n⟩

/-- Embeds the `glm::mat4` product: `(A * B)[c][r] = sum over k of A[k][r] * B[c][k]`. -/
def mat4mul (a b : Mat4) : Mat4 where
  m00 := a.m00 * b.m00 + a.m10 * b.m01 + a.m20 * b.m02 + a.m30 * b.m03
  m01 := a.m01 * b.m00 + a.m11 * b.m01 + a.m21 * b.m02 + a.m31 * b.m03
  m02 := a.m02 * b.m00 + a.m12 * b.m01 + a.m22 * b.m02 + a.m32 * b.m03
  m03 := a.m03 * b.m00 + a.m13 * b.m01 + a.m23 * b.m02 + a.m33 * b.m03
  m10 := a.m00 * b.m10 + a.m10 * b.m11 + a.m20 * b.m12 + a.m30 * b.m13
  m11 := a.m01 * b.m10 + a.m11 * b.m11 + a.m21 * b.m12 + a.m31 * b.m13
  m12 := a.m02 * b.m10 + a.m12 * b.m11 + a.m22 * b.m12 + a.m32 * b.m13
  m13 := a.m03 * b.m10 + a.m13 * b.m11 + a.m23 * b.m12 + a.m33 * b.m13
  m20 := a.m00 * b.m20 + a.m10 * b.m21 + a.m20 * b.m22 + a.m30 * b.m23
  m21 := a.m01 * b.m20 + a.m11 * b.m21 + a.m21 * b.m22 + a.m31 * b.m23
  m22 := a.m02 * b.m20 + a.m12 * b.m21 + a.m22 * b.m22 + a.m32 * b.m23
  m23 := a.m03 * b.m20 + a.m13 * b.m21 + a.m23 * b.m22 + a.m33 * b.m23
  m30 := a.m00 * b.m30 + a.m10 * b.m31 + a.m20 * b.m32 + a.m30 * b.m33
  m31 := a.m01 * b.m30 + a.m11 * b.m31 + a.m21 * b.m32 + a.m31 * b.m33
  m32 := a.m02 * b.m30 + a.m12 * b.m31 + a.m22 * b.m32 + a.m32 * b.m33
  m33 := a.m03 * b.m30 + a.m13 * b.m31 + a.m23 * b.m32 + a.m33 * b.m33

/-- Embeds the glm matrix-vector product: `(M * v)[r] = sum over c of M[c][r] * v[c]`. -/
def matVec (m : Mat4) (v : Vec4) : Vec4 where
  x := m.m00 * v.x + m.m10 * v.y + m.m20 * v.z + m.m30 * v.w
  y := m.m01 * v.x + m.m11 * v.y + m.m21 * v.z + m.m31 * v.w
  z := m.m02 * v.x + m.m12 * v.y + m.m22 * v.z + m.m32 * v.w
  w := m.m03 * v.x + m.m13 * v.y + m.m23 * v.z + m.m33 * v.w

/-- Embeds `glm::toMat4` on a quaternion (`glm::mat4_cast`). -/
def quatToMat4 (q : Quat) : Mat4 where
  m00 := 1 - 2 * (q.y * q.y + q.z * q.z)
  m01 := 2 * (q.x * q.y + q.w * q.z)
  m02 := 2 * (q.x * q.z - q.w * q.y)
  m03 := 0
  m10 := 2 * (q.x * q.y - q.w * q.z)
  m11 := 1 - 2 * (q.x * q.x + q.z * q.z)
  m12 := 2 * (q.y * q.z + q.w * q.x)
  m13 := 0
  m20 := 2 * (q.x * q.z + q.w * q.y)
  m21 := 2 * (q.y * q.z - q.w * q.x)
  m22 := 1 - 2 * (q.x * q.x + q.y * q.y)
  m23 := 0
  m30 := 0
  m31 := 0
  m32 := 0
  m33 := 1

/-- Embeds `glm::lookAt` (right-handed, glm's default). -/
def lookAtM (eye center up : Vec3) : Mat4 :=
  let f := vnormalize (vsub center eye)
  let s := vnormalize (vcross f up)
  let u := vcross s f
  { m00 := s.x, m01 := u.x, m02 := -f.x, m03 := 0
    m10 := s.y, m11 := u.y, m12 := -f.y, m13 := 0
    m20 := s.z, m21 := u.z, m22 := -f.z, m23 := 0
    m30 := -vdot s eye, m31 := -vdot u eye, m32 := vdot f eye, m33 := 1 }

/-- Embeds `glm::scale` applied to the identity: a diagonal scaling matrix. -/
def scaleM (v : Vec3) : Mat4 where
  m00 := v.x
  m01 := 0
  m02 := 0
  m03 := 0
  m10 := 0
  m11 := v.y
  m12 := 0
  m13 := 0
  m20 := 0
  m21 := 0
  m22 := v.z
  m23 := 0
  m30 := 0
  m31 := 0
  m32 := 0
  m33 := 1

/-- The identity quaternion. -/
def quatId : Quat := ⟨1, 0, 0, 0⟩

/-- An OVR field-of-view port: tangents of the four half-angles
(`ovrFovPort`). -/
structure FovPort where
  upTan : ℚ
  downTan : ℚ
  leftTan : ℚ
  rightTan : ℚ
deriving DecidableEq, Repr

/-- All four half-angle tangents of a field-of-view port are positive
(true of every physical HMD FOV). -/
def fovPos (f : FovPort) : Prop :=
  0 < f.upTan ∧ 0 < f.downTan ∧ 0 < f.leftTan ∧ 0 < f.rightTan

/-- The vendor SDK's `ovrMatrix4f_Projection(fov, znear, zfar,
ovrProjection_RightHanded)` (external utility math, OVR SDK 0.6
`CreateProjection` with `handednessScale = -1`), composed with the glue
code's `fromOvr` transpose into glm column-major layout: our `mCR` holds
the SDK's row-major `M[R][C]`. -/
def ovrProjectionRH (fov : FovPort) (znear zfar : ℚ) : Mat4 :=
  let xScale := 2 / (fov.leftTan + fov.rightTan)
  let xOffset := (fov.leftTan - fov.rightTan) * xScale * (1 / 2)
  let yScale := 2 / (fov.upTan + fov.downTan)
  let yOffset := (fov.upTan - fov.downTan) * yScale * (1 / 2)
  { m00 := xScale, m10 := 0, m20 := -xOffset, m30 := 0
    m01 := 0, m11 := yScale, m21 := -(-yOffset), m31 := 0
    m02 := 0, m12 := 0, m22 := -zfar / (znear - zfar), m32 := zfar * znear / (znear - zfar)
    m03 := 0, m13 := 0, m23 := -1, m33 := 0 }

/-- A 2-d integer size (`ovrSizei` / `ci::ivec2`). -/
structure Size where
  w : ℤ
  h : ℤ
deriving DecidableEq, Repr

/-- An integer viewport rectangle (`ovrRecti`). -/
structure Rect where
  x : ℤ
  y : ℤ
  w : ℤ
  h : ℤ
deriving DecidableEq, Repr

/-- A rigid pose: orientation quaternion plus position (`ovrPosef`). -/
structure Pose where
  orientation : Quat
  position : Vec3
deriving DecidableEq, Repr

/-- The per-eye render descriptor returned by `ovrHmd_GetRenderDesc`
(`ovrEyeRenderDesc`): the fields the glue code reads. -/
structure EyeRenderDesc where
  fov : FovPort
  hmdToEyeViewOffset : Vec3
deriving DecidableEq, Repr

/-- The swap-chain render target owned by the session (`TextureBuffer`
plus its `ovrSwapTextureSet`): its size, the length of the texture ring,
and the current ring index. -/
structure RenderBuffer where
  size : Size
  textureCount : Nat
  currentIndex : Nat
deriving DecidableEq, Repr

/-- The frame-submission layer (`ovrLayerEyeFov`): the fields the glue
code writes. -/
structure Layer where
  fov : Fin 2 → FovPort
  viewport : Fin 2 → Rect
  renderPose : Fin 2 → Pose

/-- The attached host window: whether the native window is still valid
(`window->isValid()`) and whether its renderer dynamic-casts to
`RendererGl` (the expected stereo-capable renderer type). -/
structure Window where
  valid : Bool
  rendererIsGl : Bool
deriving DecidableEq, Repr

/-- The fields of the `ovrHmd` device descriptor read by the glue code. -/
structure Hmd where
  resolution : Size
  defaultEyeFov : Fin 2 → FovPort
  eyeRenderOrder : Fin 2 → Fin 2

/-- State-mutating commands the session issues to the vendor device.
Pure queries (tracking-state polls, size queries) are not recorded since
they do not change device state. -/
inductive DevCall where
  | setEnabledCaps (caps : Nat)
  | configureTracking (caps : Nat)
  | submitFrame
  | recenterPose
  | destroyMirrorTexture
  | destroySwapTextureSet
  | destroyHmd
deriving DecidableEq, Repr

/-- Behaviour of the external vendor runtime: the query functions the glue
code calls, modelled as an abstract collaborator. -/
structure Device where
  getFovTextureSize : Fin 2 → FovPort → ℚ → Size
  getRenderDesc : Fin 2 → FovPort → EyeRenderDesc
  positionConnected : Bool
  positionTracked : Bool
  frameTiming : ℚ
  headPoseAt : ℚ → Pose
  calcEyePoses : Pose → (Fin 2 → Vec3) → Fin 2 → Pose
  swapTextureCount : Nat
  submitResult : ℤ

/-- The host camera (`ci::CameraPersp mHostCamera`): the fields the glue
code reads. -/
structure CameraState where
  orientation : Quat
  eyePoint : Vec3
deriving DecidableEq, Repr

/-- The active-eye camera (`HmdEyeCamera mHmdEyeCamera`): orientation and
position written from the tracked pose, near/far clip planes, and the
SDK-supplied projection matrix `mOvrProjection`. -/
structure EyeCamera where
  orientation : Quat
  eyePoint : Vec3
  nearClip : ℚ
  farClip : ℚ
  mOvrProjection : Mat4
deriving DecidableEq, Repr

/-- The state of one `hmd::OculusRift` session, one field per data member
of the class that the verified properties touch.  `hookStart` and
`hookFinish` model the `RendererGl` start-draw/finish-draw slots of the
attached window's renderer holding the session's hooks.  `devCalls` is a
ghost trace of the state-mutating device commands issued so far. -/
structure State where
  mWindow : Option Window
  hookStart : Bool
  hookFinish : Bool
  mHeadScale : ℚ
  mScreenPercentage : ℚ
  mMirrorPercentage : ℚ
  mHmdCaps : Nat
  mTrackingCaps : Nat
  mHmdSettingsChanged : Bool
  mIsExtended : Bool
  mIsMirrrored : Bool
  mIsMonoscopic : Bool
  mUsePositionalTracking : Bool
  mHmd : Option Hmd
  mHostCamera : CameraState
  mHmdEyeCamera : EyeCamera
  mEye : Fin 2
  mEyeRenderPose : Fin 2 → Pose
  mEyeRenderDesc : Fin 2 → EyeRenderDesc
  mEyeViewOffset : Fin 2 → Vec3
  mRenderBuffer : Option RenderBuffer
  mMirrorAllocated : Bool
  mLayer : Layer
  mViewMatrixCached : Bool
  mInverseViewMatrixCached : Bool
  mProjectionCached : Bool
  mViewMatrix : Mat4
  mInverseViewMatrix : Mat4
  mProjectionMatrix : Mat4
  devCalls : List DevCall

/-- Embeds `OculusRift::isValid( const WindowRef& window )` (lines 436-439):
`window && window->isValid()`; a null `WindowRef` is `none`. -/
def windowIsValid (w : Option Window) : Bool :=
  match w with
  | some wv => wv.valid
  | none => false

/-- Modelled from the spec: the header-only accessor
`isPositionalTrackingEnabled()` (header absent from `src/`), "the local
positional tracking enabled setting". -/
def isPositionalTrackingEnabled (s : State) : Bool := s.mUsePositionalTracking

/-- Modelled from the spec: the header-only accessor `isMonoscopic()`
(header absent from `src/`), whether monoscopic mode is active. -/
def isMonoscopic (s : State) : Bool := s.mIsMonoscopic

/-- Embeds `OculusRift::isTracked` (lines 411-416): polls the device tracking
state and requires both `ovrStatus_PositionConnected` and
`ovrStatus_PositionTracked`, ANDed with the local positional-tracking
setting. -/
def isTracked (d : Device) (s : State) : Bool :=
  (d.positionConnected && d.positionTracked) && isPositionalTrackingEnabled s

/-- Embeds `OculusRift::getViewMatrix` (lines 322-337), with the C++ `mutable`
cache members modelled by returning the updated state. -/
def getViewMatrix (d : Device) (s : State) : Mat4 × State :=
  if s.mViewMatrixCached then (s.mViewMatrix, s)
  else
    let hostOrientation := quatToMat4 s.mHostCamera.orientation
    let orientation := mat4mul hostOrientation (quatToMat4 s.mHmdEyeCamera.orientation)
    let up := vec4xyz (matVec orientation ⟨0, 1, 0, 0⟩)
    let forward := vec4xyz (matVec orientation ⟨0, 0, -1, 0⟩)
    let eye0 := s.mHostCamera.eyePoint
    let eye :=
      if isTracked d s then
        vadd eye0 (vec4xyz (matVec hostOrientation (toVec4 s.mHmdEyeCamera.eyePoint 1)))
      else eye0
    let m := mat4mul (lookAtM eye (vadd eye forward) up) (scaleM (vec3all (1 / s.mHeadScale)))
    (m, { s with mViewMatrix := m, mViewMatrixCached := true })

/-- Modelled from the spec: the eye camera's `getProjectionMatrix()`
override (header absent from `src/`) returns the SDK-supplied
`mOvrProjection` that `enableEye` stored ("supplied by the device's
per-eye render descriptor combined with the camera's near/far clip
planes, right-handed convention"). -/
def eyeCameraProjection (c : EyeCamera) : Mat4 := c.mOvrProjection

/-- Embeds `OculusRift::getProjectionMatrix` (lines 348-355), cache modelled as
in `getViewMatrix`. -/
def getProjectionMatrix (s : State) : Mat4 × State :=
  if s.mProjectionCached then (s.mProjectionMatrix, s)
  else
    let m := eyeCameraProjection s.mHmdEyeCamera
    (m, { s with mProjectionMatrix := m, mProjectionCached := true })

/-- Embeds `OculusRift::enableEye` (lines 297-312).  Dereferences `mHmd`
unconditionally in the C++ (undefined behaviour on a null handle, which
the constructor prevents); the `none` branch leaves the state unchanged
and every theorem supplies a present handle. -/
def enableEye (d : Device) (eyeIndex : Fin 2) (applyMatrices : Bool) (s : State) : State :=
  match s.mHmd with
  | none => s
  | some hmd =>
    let eye := hmd.eyeRenderOrder eyeIndex
    let pose := s.mEyeRenderPose eye
    let s1 : State :=
      { s with
        mProjectionCached := false
        mViewMatrixCached := false
        mInverseViewMatrixCached := false
        mEye := eye
        mHmdEyeCamera :=
          { s.mHmdEyeCamera with
            orientation := pose.orientation
            eyePoint := pose.position
            mOvrProjection :=
              ovrProjectionRH (s.mEyeRenderDesc eye).fov
                s.mHmdEyeCamera.nearClip s.mHmdEyeCamera.farClip } }
    if applyMatrices then
      let (_, s2) := getViewMatrix d s1
      let (_, s3) := getProjectionMatrix s2
      s3
    else s1

/-- Embeds `OculusRift::getEyes` (lines 314-320). -/
def getEyes (s : State) : List (Fin 2) :=
  match s.mHmd with
  | some hmd =>
    if windowIsValid s.mWindow then [hmd.eyeRenderOrder 0, hmd.eyeRenderOrder 1]
    else []
  | none => []

/-- Embeds `OculusRift::detachFromWindow` (lines 183-193): when the held window
reference is valid, null the renderer's two draw hooks (when the renderer
is a `RendererGl`) and reset the window reference.  Touches neither the
device handle nor the render target. -/
def detachFromWindow (s : State) : State :=
  match s.mWindow with
  | some wv =>
    if wv.valid then
      let s1 := if wv.rendererIsGl then { s with hookStart := false, hookFinish := false } else s
      { s1 with mWindow := none }
    else s
  | none => s

/-- The combined eye-buffer size computed in `initializeFrameBuffer`
(lines 242-246): widths add, heights take the max. -/
def fbTargetSize (d : Device) (hmd : Hmd) (sp : ℚ) : Size :=
  let left := d.getFovTextureSize 0 (hmd.defaultEyeFov 0) sp
  let right := d.getFovTextureSize 1 (hmd.defaultEyeFov 1) sp
  ⟨left.w + right.w, max left.h right.h⟩

/-- The per-eye viewport rectangles written into the layer (lines
268-276): the left half and the right half of the combined target. -/
def layerViewport (size : Size) (i : Fin 2) : Rect :=
  if i = 0 then ⟨0, 0, size.w / 2, size.h⟩
  else ⟨size.w / 2, 0, size.w / 2, size.h⟩

/-- Embeds `OculusRift::initializeFrameBuffer` (lines 239-278): recreate the
render target, re-query the per-eye render descriptors and rewrite the
layer only when there is no buffer yet or the computed size changed. -/
def initializeFrameBuffer (d : Device) (hmd : Hmd) (s : State) : State :=
  let size := fbTargetSize d hmd s.mScreenPercentage
  let stale : Bool :=
    match s.mRenderBuffer with
    | some rb => rb.size != size
    | none => true
  if stale then
    let descs : Fin 2 → EyeRenderDesc := fun i => d.getRenderDesc i (hmd.defaultEyeFov i)
    { s with
      mRenderBuffer := some ⟨size, d.swapTextureCount, 0⟩
      mEyeRenderDesc := descs
      mLayer :=
        { fov := fun i => (descs i).fov
          viewport := fun i => layerViewport size i
          renderPose := s.mLayer.renderPose } }
  else s

/-- Embeds `OculusRift::updateHmdSettings` (lines 441-445): flush the capability
set to the device and clear the settings-changed flag. -/
def updateHmdSettings (s : State) : State :=
  { s with
    mHmdSettingsChanged := false
    devCalls := s.devCalls ++ [DevCall.setEnabledCaps s.mHmdCaps] }

/-- Embeds `OculusRift::initialize` (lines 195-220; named here after its public
entry point `attachToWindow`, since `initialize` is reserved), the attach
path, returning the C++ `bool` result or the thrown `std::runtime_error`
as `Except`, paired with the observable resulting state (member mutations
before a throw persist). -/
def attachToWindow (d : Device) (w : Option Window) (s : State) : Except String Bool × State :=
  match s.mHmd with
  | none => (Except.ok false, s)
  | some hmd =>
    if windowIsValid w then
      match w with
      | some wv =>
        let s1 := initializeFrameBuffer d hmd s
        let s2 := updateHmdSettings s1
        if wv.rendererIsGl then
          let s3 : State :=
            { s2 with
              hookStart := true
              hookFinish := true
              devCalls := s2.devCalls ++ [DevCall.configureTracking s2.mTrackingCaps]
              mWindow := some wv }
          (Except.ok true, s3)
        else
          (Except.error "CinderOculus can only be used in combination with RendererGl.", s2)
      | none => (Except.ok false, s)
    else (Except.ok false, s)

/-- Embeds `OculusRift::~OculusRift` (lines 170-181) plus the implicit member
teardown: detach, destroy the mirror texture and swap texture set,
destroy the device handle, null it. -/
def oculusRiftDestroy (s : State) : State :=
  let s1 := detachFromWindow s
  let s2 : State :=
    { s1 with
      devCalls := s1.devCalls ++ [DevCall.destroyMirrorTexture, DevCall.destroySwapTextureSet]
      mMirrorAllocated := false
      mRenderBuffer := none }
  let s3 := if s2.mHmd.isSome then { s2 with devCalls := s2.devCalls ++ [DevCall.destroyHmd] } else s2
  { s3 with mHmd := none }

/-- Embeds `OculusRift::bind` (lines 280-288): advance the swap-chain ring index
and bind the render surface (a GL-side effect with no session state). -/
def bindTarget (s : State) : State :=
  match s.mRenderBuffer with
  | some rb =>
    { s with mRenderBuffer := some { rb with currentIndex := (rb.currentIndex + 1) % rb.textureCount } }
  | none => s

/-- Embeds `OculusRift::unbind` (lines 290-295): unset the render surface, a
GL-side effect only; session state is unchanged. -/
def unbindTarget (s : State) : State := s

/-- Embeds `OculusRift::setScreenPercentage` (lines 399-403): stores the value
(the `CI_ASSERT` is debug-only); sets no flag, issues no device call. -/
def setScreenPercentage (sp : ℚ) (s : State) : State := { s with mScreenPercentage := sp }

/-- Embeds `OculusRift::setMirrorPercentage` (lines 405-409). -/
def setMirrorPercentage (mp : ℚ) (s : State) : State := { s with mMirrorPercentage := mp }

/-- Embeds `OculusRift::enableMirrored` (lines 423-429): records the value and
raises the settings-changed flag, only when the value actually changes. -/
def enableMirrored (enabled : Bool) (s : State) : State :=
  if s.mIsMirrrored ≠ enabled then
    { s with mIsMirrrored := enabled, mHmdSettingsChanged := true }
  else s

/-- Embeds `OculusRift::setHeadScale` (lines 431-434). -/
def setHeadScale (scale : ℚ) (s : State) : State := { s with mHeadScale := scale }

/-- Modelled from the spec: the header-only monoscopic toggle (header
absent from `src/`); per the spec each setter "records a settings changed
flag". -/
def enableMonoscopic (enabled : Bool) (s : State) : State :=
  { s with mIsMonoscopic := enabled, mHmdSettingsChanged := true }

/-- Modelled from the spec: the header-only positional-tracking toggle
(header absent from `src/`); per the spec each setter "records a settings
changed flag". -/
def enablePositionalTracking (enabled : Bool) (s : State) : State :=
  { s with mUsePositionalTracking := enabled, mHmdSettingsChanged := true }

/-- The per-eye view offsets chosen at BeginFrame (lines 456-463): in
monoscopic mode only the x components of the previous offsets are forced
to 0, otherwise the vendor-provided offsets from the render descriptors. -/
def frameOffsets (mono : Bool) (prev : Fin 2 → Vec3) (descs : Fin 2 → EyeRenderDesc) :
    Fin 2 → Vec3 :=
  if mono then fun i => { prev i with x := 0 }
  else fun i => (descs i).hmdToEyeViewOffset

/-- Embeds `OculusRift::startDrawFn` (lines 447-471), the BeginFrame hook:
refresh the frame buffer, flush pending settings, choose the per-eye view
offsets, poll predicted timing and head pose, derive the two eye poses,
and record them in the layer.  (`makeCurrentContext` is a GL-side effect.) -/
def startDrawFn (d : Device) (s : State) : State :=
  match s.mHmd with
  | none => s
  | some hmd =>
    let s1 := initializeFrameBuffer d hmd s
    let s2 := if s1.mHmdSettingsChanged then updateHmdSettings s1 else s1
    let offs := frameOffsets (isMonoscopic s2) s2.mEyeViewOffset s2.mEyeRenderDesc
    let s3 := { s2 with mEyeViewOffset := offs }
    let headPose := d.headPoseAt d.frameTiming
    let poses := d.calcEyePoses headPose offs
    { s3 with
      mEyeRenderPose := poses
      mLayer := { s3.mLayer with renderPose := poses } }

/-- Embeds `OculusRift::finishDrawFn` (lines 473-486), the post-render hook:
build the view-scale descriptor from the session state and submit the
frame; the device's result (`d.submitResult`) is bound and dropped, so
no session field depends on it. -/
def finishDrawFn (d : Device) (s : State) : State :=
  let _result := d.submitResult
  { s with devCalls := s.devCalls ++ [DevCall.submitFrame] }

/-- The all-zero matrix, used as the initial value of the cached-matrix
members before their first computation. -/
def matZero : Mat4 := ⟨0, 0, 0, 0, 0, 0, 0, 0, 0, 0, 0, 0, 0, 0, 0, 0⟩

/-- A symmetric concrete field-of-view port (all half-angle tangents 1). -/
def exFov : FovPort := ⟨1, 1, 1, 1⟩

/-- A second concrete field-of-view port differing from `exFov` in the
left half-angle tangent. -/
def exFovB : FovPort := ⟨1, 1, 2, 1⟩

/-- A concrete HMD descriptor with left-then-right eye render order. -/
def exHmd : Hmd where
  resolution := ⟨1920, 1080⟩
  defaultEyeFov := fun _ => exFov
  eyeRenderOrder := fun i => i

/-- A concrete vendor device with positional tracking not connected and a
successful submit result. -/
def exDevice : Device where
  getFovTextureSize := fun _ _ sp => ⟨Int.floor (sp * 960), Int.floor (sp * 1080)⟩
  getRenderDesc := fun i fov =>
    ⟨fov, if i = 0 then ⟨-(8 / 250), 0, 0⟩ else ⟨8 / 250, 0, 0⟩⟩
  positionConnected := false
  positionTracked := false
  frameTiming := 0
  headPoseAt := fun _ => ⟨quatId, ⟨0, 0, 0⟩⟩
  calcEyePoses := fun head offs i => ⟨head.orientation, vadd head.position (offs i)⟩
  swapTextureCount := 2
  submitResult := 0

/-- A freshly constructed session (the constructor's defaults, lines
141-167, with `exHmd` as the created handle): no window, default
percentages, settings-changed flag raised, caches invalid. -/
def baseState : State where
  mWindow := none
  hookStart := false
  hookFinish := false
  mHeadScale := 1
  mScreenPercentage := 1
  mMirrorPercentage := 1 / 2
  mHmdCaps := 0
  mTrackingCaps := 0
  mHmdSettingsChanged := true
  mIsExtended := false
  mIsMirrrored := true
  mIsMonoscopic := false
  mUsePositionalTracking := true
  mHmd := some exHmd
  mHostCamera := ⟨quatId, ⟨0, 0, 0⟩⟩
  mHmdEyeCamera := ⟨quatId, ⟨0, 0, 0⟩, 1 / 2, 100, matZero⟩
  mEye := 0
  mEyeRenderPose := fun _ => ⟨quatId, ⟨0, 0, 0⟩⟩
  mEyeRenderDesc := fun _ => ⟨exFov, ⟨0, 0, 0⟩⟩
  mEyeViewOffset := fun _ => ⟨0, 0, 0⟩
  mRenderBuffer := none
  mMirrorAllocated := false
  mLayer := ⟨fun _ => exFov, fun _ => ⟨0, 0, 0, 0⟩, fun _ => ⟨quatId, ⟨0, 0, 0⟩⟩⟩
  mViewMatrixCached := false
  mInverseViewMatrixCached := false
  mProjectionCached := false
  mViewMatrix := matZero
  mInverseViewMatrix := matZero
  mProjectionMatrix := matZero
  devCalls := []

/-- The concrete configuration of the spec's view-matrix test vector:
host camera at `(0,0,1)` with identity orientation, identity eye
orientation, zero tracked eye offset, head scale 1. -/
def exC1State : State := { baseState with mHostCamera := ⟨quatId, ⟨0, 0, 1⟩⟩ }

/-- A session whose two eyes carry different field-of-view descriptors. -/
def exC2State : State :=
  { baseState with
    mEyeRenderDesc := fun i => if i = 0 then ⟨exFov, ⟨0, 0, 0⟩⟩ else ⟨exFovB, ⟨0, 0, 0⟩⟩ }

/-- A monoscopic session whose previous per-eye view offsets have nonzero
y and z components. -/
def exC3State : State :=
  { baseState with mIsMonoscopic := true, mEyeViewOffset := fun _ => ⟨5, 7, 9⟩ }

/-- A session with the settings-changed flag clear. -/
def exC4State : State := { baseState with mHmdSettingsChanged := false }

/-- An attached session: valid GL window, hooks registered, render target
allocated. -/
def exAttached : State :=
  { baseState with
    mWindow := some ⟨true, true⟩
    hookStart := true
    hookFinish := true
    mRenderBuffer := some ⟨⟨1920, 1080⟩, 2, 0⟩ }


/-- Multiplying on the right by a unit scale matrix is the identity
(the head-scale factor at `headScale = 1`). -/
theorem mat4mul_scaleM_one (m : Mat4) : mat4mul m (scaleM (vec3all 1)) = m := by
  simp [mat4mul, scaleM, vec3all]

/-- Claim C1: for every cached state whose view cache is invalid, the view
matrix returned by `getViewMatrix` equals
`lookAt(eye, eye+forward, up) * scale(1/headScale)`, where forward and up
are the canonical `-Z` and `+Y` axes rotated through
`hostOrientation * eyeOrientation`, and eye is the host eye point plus,
only when positional tracking is enabled and the device reports position
connected and tracked, the tracked eye position rotated into host space;
in particular with identity orientations, host eye point `(0,0,1)`, zero
tracked eye offset and head scale 1 it equals
`lookAt((0,0,1),(0,0,0),(0,1,0))`. -/
theorem getViewMatrix_lookAt_scale (d : Device) (s : State)
    (h : s.mViewMatrixCached = false) :
    ((getViewMatrix d s).1 =
      (let hostM := quatToMat4 s.mHostCamera.orientation
       let orientM := mat4mul hostM (quatToMat4 s.mHmdEyeCamera.orientation)
       let forward := vec4xyz (matVec orientM ⟨0, 0, -1, 0⟩)
       let up := vec4xyz (matVec orientM ⟨0, 1, 0, 0⟩)
       let eye :=
         if (d.positionConnected && d.positionTracked) && s.mUsePositionalTracking then
           vadd s.mHostCamera.eyePoint
             (vec4xyz (matVec hostM (toVec4 s.mHmdEyeCamera.eyePoint 1)))
         else s.mHostCamera.eyePoint
       mat4mul (lookAtM eye (vadd eye forward) up) (scaleM (vec3all (1 / s.mHeadScale)))))
    ∧ (getViewMatrix exDevice exC1State).1 = lookAtM ⟨0, 0, 1⟩ ⟨0, 0, 0⟩ ⟨0, 1, 0⟩ := by
  constructor
  · simp only [getViewMatrix, h, Bool.false_eq_true, if_false, isTracked,
      isPositionalTrackingEnabled]
  · show (getViewMatrix exDevice exC1State).1 = _
    norm_num [getViewMatrix, exC1State, baseState, isTracked, isPositionalTrackingEnabled,
      exDevice, quatId, quatToMat4, mat4mul, matVec, vec4xyz, toVec4, vadd, vec3all]
    exact mat4mul_scaleM_one _

/-- Witness for C1 at the spec's concrete view-matrix test vector. -/
theorem getViewMatrix_lookAt_scale_witness :
    (getViewMatrix exDevice exC1State).1 = lookAtM ⟨0, 0, 1⟩ ⟨0, 0, 0⟩ ⟨0, 1, 0⟩ :=
  (getViewMatrix_lookAt_scale exDevice exC1State rfl).2

/-- Claim C7: `detachFromWindow` is idempotent — for every session state,
calling it twice produces exactly the state of calling it once (and, being
total, produces no error). -/
theorem detachFromWindow_idempotent (s : State) :
    detachFromWindow (detachFromWindow s) = detachFromWindow s := by
  rcases hs : s.mWindow with _ | w
  · simp [detachFromWindow, hs]
  · by_cases hv : w.valid
    · by_cases hg : w.rendererIsGl <;> simp [detachFromWindow, hs, hv, hg]
    · simp [detachFromWindow, hs, hv]

/-- Claim C8: for every device result `r` (success or not) the post-render
hook only submits the frame: it raises no error (it is total) and leaves
every session field — poses, render target, settings, caches — unchanged;
in particular the result does not appear on the right-hand side, so no
state depends on a non-success submission result. -/
theorem finishDrawFn_ignores_submit_result (d : Device) (r : ℤ) (s : State) :
    finishDrawFn { d with submitResult := r } s
      = { s with devCalls := s.devCalls ++ [DevCall.submitFrame] } := rfl

/-- Claim C10: `getEyes` returns the device-specified eye render order
when a device handle exists and the attached window is valid, and the
empty list when the handle is missing or the window is invalid. -/
theorem getEyes_eye_render_order (s : State) (hmd : Hmd) :
    (s.mHmd = some hmd → windowIsValid s.mWindow = true →
      getEyes s = [hmd.eyeRenderOrder 0, hmd.eyeRenderOrder 1])
    ∧ (s.mHmd = none → getEyes s = [])
    ∧ (windowIsValid s.mWindow = false → getEyes s = []) := by
  refine ⟨fun hh hv => ?_, fun hh => ?_, fun hv => ?_⟩
  · simp [getEyes, hh, hv]
  · simp [getEyes, hh]
  · rcases hh : s.mHmd with _ | h2 <;> simp [getEyes, hh, hv]

/-- Witness for C10 on a concrete attached session. -/
theorem getEyes_eye_render_order_witness :
    getEyes exAttached = [exHmd.eyeRenderOrder 0, exHmd.eyeRenderOrder 1] :=
  (getEyes_eye_render_order exAttached exHmd).1 rfl rfl

/-- The vendor projection is injective in the field-of-view port (for
physical FOVs with positive half-angle tangents), near/far held fixed. -/
theorem ovrProjectionRH_fov_injective (f1 f2 : FovPort) (n zf : ℚ)
    (h1 : fovPos f1) (h2 : fovPos f2)
    (he : ovrProjectionRH f1 n zf = ovrProjectionRH f2 n zf) : f1 = f2 := by
  obtain ⟨u1, d1, l1, r1⟩ := f1
  obtain ⟨u2, d2, l2, r2⟩ := f2
  obtain ⟨hu1, hd1, hl1, hr1⟩ := h1
  obtain ⟨hu2, hd2, hl2, hr2⟩ := h2
  have h00 := congrArg Mat4.m00 he
  have h20 := congrArg Mat4.m20 he
  have h11 := congrArg Mat4.m11 he
  have h21 := congrArg Mat4.m21 he
  simp only [ovrProjectionRH] at h00 h20 h11 h21
  have hx1 : l1 + r1 > 0 := by linarith
  have hx2 : l2 + r2 > 0 := by linarith
  have hy1 : u1 + d1 > 0 := by linarith
  have hy2 : u2 + d2 > 0 := by linarith
  rw [div_eq_div_iff hx1.ne' hx2.ne'] at h00
  rw [div_eq_div_iff hy1.ne' hy2.ne'] at h11
  have hxs : l1 + r1 = l2 + r2 := by linarith
  have hys : u1 + d1 = u2 + d2 := by linarith
  have hxo : (l1 - r1) * (2 / (l1 + r1)) = (l2 - r2) * (2 / (l2 + r2)) := by
    have := h20
    field_simp at this ⊢
    linarith
  have hyo : (u1 - d1) * (2 / (u1 + d1)) = (u2 - d2) * (2 / (u2 + d2)) := by
    have := h21
    field_simp at this ⊢
    linarith
  rw [hxs] at hxo
  rw [hys] at hyo
  have hxd : l1 - r1 = l2 - r2 := by
    have hne : (2 : ℚ) / (l2 + r2) ≠ 0 := by positivity
    exact mul_right_cancel₀ hne hxo
  have hyd : u1 - d1 = u2 - d2 := by
    have hne : (2 : ℚ) / (u2 + d2) ≠ 0 := by positivity
    exact mul_right_cancel₀ hne hyo
  have : l1 = l2 := by linarith
  have : r1 = r2 := by linarith
  have : u1 = u2 := by linarith
  have : d1 = d2 := by linarith
  simp_all

/-- Querying the projection right after an eye activation always returns
the freshly derived projection of that eye's field-of-view descriptor
(with the camera's near/far planes), whatever the cache held before and
whether or not the activation pushed matrices. -/
theorem getProjectionMatrix_after_enableEye (d : Device) (s : State) (hmd : Hmd)
    (hh : s.mHmd = some hmd) (i : Fin 2) (ap : Bool) :
    (getProjectionMatrix (enableEye d i ap s)).1
      = ovrProjectionRH (s.mEyeRenderDesc (hmd.eyeRenderOrder i)).fov
          s.mHmdEyeCamera.nearClip s.mHmdEyeCamera.farClip := by
  cases ap <;>
    simp [enableEye, hh, getProjectionMatrix, getViewMatrix, eyeCameraProjection]

/-- activating an eye changes neither the render descriptors, the clip
planes, nor the device handle. -/
theorem enableEye_preserves_core (d : Device) (s : State) (i : Fin 2) (ap : Bool) :
    (enableEye d i ap s).mEyeRenderDesc = s.mEyeRenderDesc
    ∧ (enableEye d i ap s).mHmdEyeCamera.nearClip = s.mHmdEyeCamera.nearClip
    ∧ (enableEye d i ap s).mHmdEyeCamera.farClip = s.mHmdEyeCamera.farClip
    ∧ (enableEye d i ap s).mHmd = s.mHmd := by
  rcases hh : s.mHmd with _ | hmd <;>
    cases ap <;>
      simp [enableEye, hh, getProjectionMatrix, getViewMatrix]

/-- Claim C2: `enableEye` invalidates all three cached matrices, so after
`enableEye(A)` then `enableEye(B)` the projection query returns eye B's
freshly derived projection — never eye A's stale value — and the returned
matrix differs from eye A's whenever the two eyes have different (physical)
field-of-view descriptors. -/
theorem enableEye_no_stale_matrices (d : Device) (s : State) (hmd : Hmd)
    (hh : s.mHmd = some hmd) (iA iB : Fin 2) (apA apB : Bool) :
    ((enableEye d iA false s).mViewMatrixCached = false
      ∧ (enableEye d iA false s).mInverseViewMatrixCached = false
      ∧ (enableEye d iA false s).mProjectionCached = false)
    ∧ (getProjectionMatrix (enableEye d iB apB (enableEye d iA apA s))).1
        = ovrProjectionRH (s.mEyeRenderDesc (hmd.eyeRenderOrder iB)).fov
            s.mHmdEyeCamera.nearClip s.mHmdEyeCamera.farClip
    ∧ (fovPos (s.mEyeRenderDesc (hmd.eyeRenderOrder iA)).fov →
       fovPos (s.mEyeRenderDesc (hmd.eyeRenderOrder iB)).fov →
       (s.mEyeRenderDesc (hmd.eyeRenderOrder iA)).fov
         ≠ (s.mEyeRenderDesc (hmd.eyeRenderOrder iB)).fov →
       (getProjectionMatrix (enableEye d iB apB (enableEye d iA apA s))).1
         ≠ (getProjectionMatrix (enableEye d iA apA s)).1) := by
  obtain ⟨hdesc, hnear, hfar, hhmd⟩ := enableEye_preserves_core d s iA apA
  have hA : (getProjectionMatrix (enableEye d iA apA s)).1
      = ovrProjectionRH (s.mEyeRenderDesc (hmd.eyeRenderOrder iA)).fov
          s.mHmdEyeCamera.nearClip s.mHmdEyeCamera.farClip :=
    getProjectionMatrix_after_enableEye d s hmd hh iA apA
  have hB : (getProjectionMatrix (enableEye d iB apB (enableEye d iA apA s))).1
      = ovrProjectionRH (s.mEyeRenderDesc (hmd.eyeRenderOrder iB)).fov
          s.mHmdEyeCamera.nearClip s.mHmdEyeCamera.farClip := by
    have := getProjectionMatrix_after_enableEye d (enableEye d iA apA s) hmd
      (by rw [hhmd, hh]) iB apB
    rw [this, hdesc, hnear, hfar]
  refine ⟨?_, hB, fun hpA hpB hne => ?_⟩
  · simp [enableEye, hh]
  · rw [hA, hB]
    intro hcontra
    exact hne (ovrProjectionRH_fov_injective _ _ _ _ hpB hpA hcontra).symm

/-- Witness for C2 on a session whose two eyes carry different FOVs: the
projection after the second activation differs from the first eye's. -/
theorem enableEye_no_stale_matrices_witness :
    (getProjectionMatrix (enableEye exDevice 1 true (enableEye exDevice 0 false exC2State))).1
      ≠ (getProjectionMatrix (enableEye exDevice 0 false exC2State)).1 := by
  refine (enableEye_no_stale_matrices exDevice exC2State exHmd rfl 0 1 false true).2.2 ?_ ?_ ?_ <;>
    norm_num [exC2State, baseState, exHmd, exFov, exFovB, fovPos]

/-- Counterexample to claim C3 as stated: with monoscopic mode active,
BeginFrame does not set the per-eye view offsets to the zero vector — on a
session whose previous offsets are `(5,7,9)` the resulting offset for eye
0 is `(0,7,9)`, not `(0,0,0)`: only the x component is forced to zero
(lines 456-459 assign only `.x`). -/
theorem startDrawFn_monoscopic_counterexample :
    exC3State.mIsMonoscopic = true
    ∧ (startDrawFn exDevice exC3State).mEyeViewOffset 0 ≠ (⟨0, 0, 0⟩ : Vec3) := by
  refine ⟨rfl, ?_⟩
  norm_num [startDrawFn, exC3State, baseState, exHmd, exDevice, initializeFrameBuffer,
    updateHmdSettings, isMonoscopic, frameOffsets, fbTargetSize, Vec3.mk.injEq]

/-- Refreshing the frame buffer touches neither the stored view offsets,
the monoscopic flag, nor the settings-changed flag. -/
theorem initializeFrameBuffer_keeps_offsets_mono (d : Device) (hmd : Hmd) (s : State) :
    (initializeFrameBuffer d hmd s).mEyeViewOffset = s.mEyeViewOffset
    ∧ (initializeFrameBuffer d hmd s).mIsMonoscopic = s.mIsMonoscopic
    ∧ (initializeFrameBuffer d hmd s).mHmdSettingsChanged = s.mHmdSettingsChanged := by
  by_cases hb : (match s.mRenderBuffer with
    | some rb => rb.size != fbTargetSize d hmd s.mScreenPercentage
    | none => true) = true <;>
  simp [initializeFrameBuffer, hb]

/-- Claim C3 (amended): at BeginFrame with monoscopic mode active only the
x components of the two per-eye view offsets are forced to 0, their y and
z components retaining their previous values; with monoscopic mode
inactive the offsets are the vendor-provided per-eye offsets from the
render descriptors current at that BeginFrame; the frame's eye poses are
derived by the device's eye-pose calculation from exactly those offsets. -/
theorem startDrawFn_eye_offsets (d : Device) (s : State) (hmd : Hmd)
    (hh : s.mHmd = some hmd) (i : Fin 2) :
    (s.mIsMonoscopic = true →
      (startDrawFn d s).mEyeViewOffset i = { s.mEyeViewOffset i with x := 0 })
    ∧ (s.mIsMonoscopic = false →
      (startDrawFn d s).mEyeViewOffset i
        = ((initializeFrameBuffer d hmd s).mEyeRenderDesc i).hmdToEyeViewOffset)
    ∧ (startDrawFn d s).mEyeRenderPose
        = d.calcEyePoses (d.headPoseAt d.frameTiming)
            (frameOffsets s.mIsMonoscopic s.mEyeViewOffset
              (initializeFrameBuffer d hmd s).mEyeRenderDesc) := by
  obtain ⟨hoff, hmono, hflag⟩ := initializeFrameBuffer_keeps_offsets_mono d hmd s
  refine ⟨fun hm => ?_, fun hm => ?_, ?_⟩
  · simp only [startDrawFn, hh]
    by_cases hf : (initializeFrameBuffer d hmd s).mHmdSettingsChanged = true <;>
      simp [hf, updateHmdSettings, isMonoscopic, hoff, hmono, hm, frameOffsets]
  · simp only [startDrawFn, hh]
    by_cases hf : (initializeFrameBuffer d hmd s).mHmdSettingsChanged = true <;>
      simp [hf, updateHmdSettings, isMonoscopic, hoff, hmono, hm, frameOffsets]
  · simp only [startDrawFn, hh]
    by_cases hf : (initializeFrameBuffer d hmd s).mHmdSettingsChanged = true <;>
      simp [hf, updateHmdSettings, isMonoscopic, hoff, hmono, frameOffsets]

/-- Witness for the amended C3 on a non-monoscopic session: the stored
offsets are the vendor-provided ones. -/
theorem startDrawFn_eye_offsets_witness :
    (startDrawFn exDevice baseState).mEyeViewOffset 0
      = ((initializeFrameBuffer exDevice exHmd baseState).mEyeRenderDesc 0).hmdToEyeViewOffset :=
  (startDrawFn_eye_offsets exDevice baseState exHmd rfl 0).2.1 rfl

/-- Counterexample to claim C4 as stated: not every settings setter
records the settings-changed flag — on a session whose flag is clear,
`setScreenPercentage` and `setMirrorPercentage` leave it clear (lines
399-409 store the value only). -/
theorem setScreenPercentage_no_flag_counterexample :
    exC4State.mHmdSettingsChanged = false
    ∧ (setScreenPercentage (3 / 2) exC4State).mHmdSettingsChanged = false
    ∧ (setMirrorPercentage (3 / 4) exC4State).mHmdSettingsChanged = false :=
  ⟨rfl, rfl, rfl⟩

/-- Refreshing the frame buffer issues no state-mutating device command
and leaves the capability set unchanged. -/
theorem initializeFrameBuffer_keeps_calls (d : Device) (hmd : Hmd) (s : State) :
    (initializeFrameBuffer d hmd s).devCalls = s.devCalls
    ∧ (initializeFrameBuffer d hmd s).mHmdCaps = s.mHmdCaps := by
  by_cases hb : (match s.mRenderBuffer with
    | some rb => rb.size != fbTargetSize d hmd s.mScreenPercentage
    | none => true) = true <;>
  simp [initializeFrameBuffer, hb]

/-- Claim C4 (amended): no settings setter performs a device call; the
mirrored toggle (and the spec-modelled monoscopic and positional-tracking
toggles) record the settings-changed flag — the mirrored toggle when the
value changes — while the screen-percentage and mirror-percentage setters
only store the new value and set no flag; the dirty capability set is
flushed to the device exactly at the next BeginFrame when the flag is set,
never at the setter call. -/
theorem settings_commit_protocol (d : Device) (s : State) (hmd : Hmd)
    (hh : s.mHmd = some hmd) (sp mp : ℚ) (b : Bool) :
    setScreenPercentage sp s = { s with mScreenPercentage := sp }
    ∧ setMirrorPercentage mp s = { s with mMirrorPercentage := mp }
    ∧ (enableMirrored b s).devCalls = s.devCalls
    ∧ (s.mIsMirrrored ≠ b → (enableMirrored b s).mHmdSettingsChanged = true)
    ∧ (enableMonoscopic b s).devCalls = s.devCalls
    ∧ (enableMonoscopic b s).mHmdSettingsChanged = true
    ∧ (enablePositionalTracking b s).devCalls = s.devCalls
    ∧ (enablePositionalTracking b s).mHmdSettingsChanged = true
    ∧ (s.mHmdSettingsChanged = true →
        (startDrawFn d s).devCalls = s.devCalls ++ [DevCall.setEnabledCaps s.mHmdCaps])
    ∧ (s.mHmdSettingsChanged = false → (startDrawFn d s).devCalls = s.devCalls) := by
  obtain ⟨hcalls, hcaps⟩ := initializeFrameBuffer_keeps_calls d hmd s
  have hflag := (initializeFrameBuffer_keeps_offsets_mono d hmd s).2.2
  refine ⟨rfl, rfl, ?_, fun hchg => ?_, ?_, rfl, ?_, rfl, fun h1 => ?_, fun h0 => ?_⟩
  · by_cases hm : s.mIsMirrrored = b <;> simp [enableMirrored, hm]
  · simp [enableMirrored, hchg]
  · simp [enableMonoscopic]
  · simp [enablePositionalTracking]
  · simp only [startDrawFn, hh]
    simp [hflag, h1, updateHmdSettings, hcalls, hcaps]
  · simp only [startDrawFn, hh]
    simp [hflag, h0, updateHmdSettings, hcalls]

/-- Witness for the amended C4: on a fresh session the raised flag is
flushed as a single capability commit at BeginFrame. -/
theorem settings_commit_protocol_witness :
    (startDrawFn exDevice baseState).devCalls
      = baseState.devCalls ++ [DevCall.setEnabledCaps baseState.mHmdCaps] :=
  ((settings_commit_protocol exDevice baseState exHmd rfl 1 1 true).2.2.2.2.2.2.2.2.1) rfl

/-- Refreshing the frame buffer touches neither the window reference, the
renderer hooks, the device handle, nor the screen percentage. -/
theorem initializeFrameBuffer_keeps_window (d : Device) (hmd : Hmd) (s : State) :
    (initializeFrameBuffer d hmd s).mWindow = s.mWindow
    ∧ (initializeFrameBuffer d hmd s).hookStart = s.hookStart
    ∧ (initializeFrameBuffer d hmd s).hookFinish = s.hookFinish
    ∧ (initializeFrameBuffer d hmd s).mHmd = s.mHmd
    ∧ (initializeFrameBuffer d hmd s).mScreenPercentage = s.mScreenPercentage := by
  by_cases hb : (match s.mRenderBuffer with
    | some rb => rb.size != fbTargetSize d hmd s.mScreenPercentage
    | none => true) = true <;>
  simp [initializeFrameBuffer, hb]

/-- Claim C5: attaching to a window whose renderer is not the expected
stereo-capable (`RendererGl`) type fails — it never returns success and
leaves the session unattached with no hooks registered — while attaching a
valid window with a GL renderer and an existing device handle registers
both render hooks and returns success. -/
theorem attachToWindow_renderer_check (d : Device) (s : State) (w : Window) (hmd : Hmd) :
    (w.rendererIsGl = false →
      (attachToWindow d (some w) s).1 ≠ Except.ok true
      ∧ (attachToWindow d (some w) s).2.mWindow = s.mWindow
      ∧ (attachToWindow d (some w) s).2.hookStart = s.hookStart
      ∧ (attachToWindow d (some w) s).2.hookFinish = s.hookFinish)
    ∧ (s.mHmd = some hmd → w.valid = true → w.rendererIsGl = true →
      (attachToWindow d (some w) s).1 = Except.ok true
      ∧ (attachToWindow d (some w) s).2.hookStart = true
      ∧ (attachToWindow d (some w) s).2.hookFinish = true
      ∧ (attachToWindow d (some w) s).2.mWindow = some w) := by
  constructor
  · intro hg
    rcases hh : s.mHmd with _ | hmd2
    · simp [attachToWindow, hh]
    · by_cases hv : w.valid = true
      · obtain ⟨hw1, hs1, hf1, _, _⟩ := initializeFrameBuffer_keeps_window d hmd2 s
        simp [attachToWindow, hh, windowIsValid, hv, hg, updateHmdSettings, hw1, hs1, hf1]
      · simp [attachToWindow, hh, windowIsValid, hv]
  · intro hh hv hg
    simp [attachToWindow, hh, windowIsValid, hv, hg]

/-- Witness for C5: a successful attach on a valid GL window. -/
theorem attachToWindow_renderer_check_witness :
    (attachToWindow exDevice (some ⟨true, true⟩) baseState).1 = Except.ok true
    ∧ (attachToWindow exDevice (some ⟨true, true⟩) baseState).2.hookStart = true
    ∧ (attachToWindow exDevice (some ⟨true, true⟩) baseState).2.hookFinish = true
    ∧ (attachToWindow exDevice (some ⟨true, true⟩) baseState).2.mWindow = some ⟨true, true⟩ :=
  (attachToWindow_renderer_check exDevice baseState ⟨true, true⟩ exHmd).2 rfl rfl rfl

/-- Counterexample to claim C6 as stated: after detach on an attached
session the device handle is not destroyed and the render target is not
released — both survive the call (`detachFromWindow`, lines 183-193, only
unhooks and clears the window reference; teardown lives in the
destructor, lines 170-181). -/
theorem detach_keeps_device_counterexample :
    windowIsValid exAttached.mWindow = true
    ∧ (detachFromWindow exAttached).mHmd.isSome = true
    ∧ (detachFromWindow exAttached).mRenderBuffer.isSome = true :=
  ⟨rfl, rfl, rfl⟩

/-- Claim C6 (amended): detach on an attached session unregisters the two
render hooks (when the renderer is the GL one) and clears the window
reference, leaving device handle, render target and mirror surface in
place; the render target, mirror surface and device handle are released
only by the destructor, which calls detach first. -/
theorem detach_unhooks_destructor_releases (s : State) (w : Window)
    (hw : s.mWindow = some w) (hv : w.valid = true) :
    ((detachFromWindow s).mWindow = none
      ∧ (w.rendererIsGl = true →
          (detachFromWindow s).hookStart = false ∧ (detachFromWindow s).hookFinish = false)
      ∧ (detachFromWindow s).mHmd = s.mHmd
      ∧ (detachFromWindow s).mRenderBuffer = s.mRenderBuffer
      ∧ (detachFromWindow s).mMirrorAllocated = s.mMirrorAllocated)
    ∧ ((oculusRiftDestroy s).mHmd = none
      ∧ (oculusRiftDestroy s).mRenderBuffer = none
      ∧ (oculusRiftDestroy s).mMirrorAllocated = false
      ∧ (oculusRiftDestroy s).mWindow = none) := by
  constructor
  · by_cases hg : w.rendererIsGl = true <;>
      simp [detachFromWindow, hw, hv, hg]
  · by_cases hg : w.rendererIsGl = true <;>
      by_cases hd : s.mHmd.isSome = true <;>
        simp [oculusRiftDestroy, detachFromWindow, hw, hv, hg, hd]

/-- Witness for the amended C6 on a concrete attached session. -/
theorem detach_unhooks_destructor_releases_witness :
    (detachFromWindow exAttached).mWindow = none
    ∧ (oculusRiftDestroy exAttached).mHmd = none :=
  ⟨(detach_unhooks_destructor_releases exAttached ⟨true, true⟩ rfl rfl).1.1,
   (detach_unhooks_destructor_releases exAttached ⟨true, true⟩ rfl rfl).2.1⟩

/-- After a frame-buffer refresh the render target's size always matches
the current screen percentage (recreated when stale, already matching
otherwise). -/
theorem initializeFrameBuffer_size (d : Device) (hmd : Hmd) (s : State) :
    Option.map RenderBuffer.size (initializeFrameBuffer d hmd s).mRenderBuffer
      = some (fbTargetSize d hmd s.mScreenPercentage) := by
  rcases hb : s.mRenderBuffer with _ | rb
  · simp [initializeFrameBuffer, hb]
  · by_cases hs2 : rb.size = fbTargetSize d hmd s.mScreenPercentage <;>
      simp [initializeFrameBuffer, hb, hs2]

/-- Within BeginFrame only the frame-buffer refresh touches the render
target. -/
theorem startDrawFn_buffer_eq (d : Device) (s : State) (hmd : Hmd) (hh : s.mHmd = some hmd) :
    (startDrawFn d s).mRenderBuffer = (initializeFrameBuffer d hmd s).mRenderBuffer := by
  simp only [startDrawFn, hh]
  by_cases hf : (initializeFrameBuffer d hmd s).mHmdSettingsChanged = true <;>
    simp [hf, updateHmdSettings]

/-- Claim C9: calling `setScreenPercentage` mid-frame (after BindTarget,
before UnbindTarget) leaves the render target untouched — its size is
unchanged by the setter, by binding and by unbinding — and the target is
resized to match the new screen percentage exactly at the next BeginFrame. -/
theorem setScreenPercentage_resize_timing (d : Device) (s : State) (hmd : Hmd)
    (hh : s.mHmd = some hmd) (sp : ℚ) :
    (setScreenPercentage sp (bindTarget s)).mRenderBuffer = (bindTarget s).mRenderBuffer
    ∧ Option.map RenderBuffer.size (bindTarget s).mRenderBuffer
        = Option.map RenderBuffer.size s.mRenderBuffer
    ∧ (unbindTarget (setScreenPercentage sp (bindTarget s))).mRenderBuffer
        = (bindTarget s).mRenderBuffer
    ∧ Option.map RenderBuffer.size
        (startDrawFn d (unbindTarget (setScreenPercentage sp (bindTarget s)))).mRenderBuffer
        = some (fbTargetSize d hmd sp) := by
  refine ⟨rfl, ?_, rfl, ?_⟩
  · rcases hb : s.mRenderBuffer with _ | rb <;> simp [bindTarget, hb]
  · have hth : (unbindTarget (setScreenPercentage sp (bindTarget s))).mHmd = some hmd := by
      rcases hb : s.mRenderBuffer with _ | rb <;>
        simp [unbindTarget, setScreenPercentage, bindTarget, hb, hh]
    have htsp : (unbindTarget (setScreenPercentage sp (bindTarget s))).mScreenPercentage = sp := by
      rcases hb : s.mRenderBuffer with _ | rb <;>
        simp [unbindTarget, setScreenPercentage, bindTarget, hb]
    rw [startDrawFn_buffer_eq d _ hmd hth, initializeFrameBuffer_size, htsp]

/-- Witness for C9: the render target is resized for the new percentage at
the next BeginFrame on a concrete session. -/
theorem setScreenPercentage_resize_timing_witness :
    Option.map RenderBuffer.size
      (startDrawFn exDevice
        (unbindTarget (setScreenPercentage (1 / 2) (bindTarget baseState)))).mRenderBuffer
      = some (fbTargetSize exDevice exHmd (1 / 2)) :=
  (setScreenPercentage_resize_timing exDevice baseState exHmd rfl (1 / 2)).2.2.2
